import Mathlib

/-!
Shallow embedding of the taxi-price-prediction service
(src/src/taxipred/backend/api.py) and its Streamlit client
(src/src/taxipred/frontend/app.py).

Python floats are modelled as rationals (ℚ); a pandas single-row DataFrame
is modelled as an ordered association list from column name to cell value;
raised exceptions are modelled with Except carrying the exception message.
The externally produced artifacts (model, scaler, label encoders,
feature-name lists) are modelled at their observable interface: the model
is an arbitrary function from a row to a list of outputs, the scaler is a
fitted StandardScaler (per-column mean and scale), and each label encoder
is its fitted vocabulary, with sklearn transform semantics (position in
the sorted class list; ValueError naming the unseen label otherwise).
-/

namespace Taxi

/-- Cell value of the single-row DataFrame: float or string. -/
inductive Value where
  | num (q : ℚ)
  | str (s : String)
deriving DecidableEq

/-- Single-row DataFrame: ordered list of (column name, cell value). -/
abbrev Row := List (String × Value)

/-- Column names of the row, in order (df.columns). -/
def columnsOf : Row → List String
  | [] => []
  | p :: l => p.1 :: columnsOf l

/-- Value of a named column (df[col] read on a one-row frame). -/
def lookupVal : Row → String → Option Value
  | [], _ => none
  | p :: l, c => if p.1 = c then some p.2 else lookupVal l c

/-- Assignment df[col] = v on a one-row frame: rewrites the named column
in place, leaving every other column and the column order unchanged. -/
def setVal : Row → String → Value → Row
  | [], _, _ => []
  | p :: l, c, v => (if p.1 = c then (c, v) else p) :: setVal l c v

/-- Single-quote character, used when reproducing Python repr in messages. -/
def sq : String := String.mk [Char.ofNat 39]

/-- Position of a label in a fitted vocabulary (sklearn classes lookup). -/
def vocabIndex : List String → String → Option ℕ
  | [], _ => none
  | a :: l, s => if a = s then some 0 else (vocabIndex l s).map (· + 1)

/-- Fitted categorical encoder: its vocabulary, as sklearn stores it
(sorted class list; the integer code of a label is its position). -/
structure LabelEncoder where
  classes : List String
deriving DecidableEq

/-- Message of the ValueError sklearn raises for an unseen label.
It names the offending value only, never the DataFrame column. -/
def unseenMsg (s : String) : String :=
  "y contains previously unseen labels: [" ++ sq ++ (s ++ (sq ++ "]"))

/-- Encoder applied to one cell (LabelEncoder.transform on a 1-element
column): the label's integer code if fitted, a ValueError otherwise. -/
def LabelEncoder.transformV (e : LabelEncoder) (v : Value) : Except String ℚ :=
  match v with
  | Value.str s =>
    match vocabIndex e.classes s with
    | some i => Except.ok (i : ℚ)
    | none => Except.error (unseenMsg s)
  | Value.num q => Except.error (unseenMsg (toString q.num))

/-- Fitted numerical scaler: per-column mean and scale (StandardScaler). -/
structure StandardScaler where
  mean : List ℚ
  scale : List ℚ
deriving DecidableEq

/-- Message of the ValueError sklearn raises on a feature-count mismatch. -/
def nFeaturesMsg (got expected : ℕ) : String :=
  "X has " ++ toString got ++ " features, but StandardScaler is expecting " ++
    toString expected ++ " features as input."

/-- Scaler applied to one row of numerical columns: standardizes each
value with the fitted per-column mean and scale, or raises on a
feature-count mismatch. -/
def StandardScaler.transform (sc : StandardScaler) (xs : List ℚ) :
    Except String (List ℚ) :=
  if xs.length = sc.mean.length ∧ xs.length = sc.scale.length then
    Except.ok ((xs.zip (sc.mean.zip sc.scale)).map fun p => (p.1 - p.2.1) / p.2.2)
  else Except.error (nFeaturesMsg xs.length sc.mean.length)

/-- The feature_names.joblib artifact: ordered categorical and numerical
field-name lists. -/
structure FeatureInfo where
  categorical_features : List String
  numerical_features : List String
deriving DecidableEq

/-- The four process-wide artifacts loaded at startup. The model is kept
at its observable interface: a deterministic map from a feature row to
the array model.predict returns (or a raised error's message). -/
structure Artifacts where
  model : Row → Except String (List ℚ)
  scaler : StandardScaler
  label_encoders : List (String × LabelEncoder)
  feature_info : FeatureInfo

/-- Lookup of label_encoders[col] (Python dict access). -/
def lookupEnc : List (String × LabelEncoder) → String → Option LabelEncoder
  | [], _ => none
  | p :: l, c => if p.1 = c then some p.2 else lookupEnc l c

/-- Message of the KeyError raised by label_encoders[col] when absent. -/
def keyErrMsg (c : String) : String := sq ++ c ++ sq

/-- The TripInput request body (pydantic model), with the field types of
api.py but none of the Field constraints, which are checked separately by
tripValid exactly as FastAPI checks them before calling the handler. -/
structure TripInput where
  Trip_Distance_km : ℚ
  Time_of_Day : String
  Day_of_Week : String
  Passenger_Count : ℚ
  Traffic_Conditions : String
  Weather : String
  Base_Fare : ℚ
  Per_Km_Rate : ℚ
  Per_Minute_Rate : ℚ
  Trip_Duration_Minutes : ℚ
deriving DecidableEq

/-- The pydantic Field constraints of TripInput (gt=0, and le=10 on
Passenger_Count). -/
def tripValid (t : TripInput) : Prop :=
  0 < t.Trip_Distance_km ∧ 0 < t.Passenger_Count ∧ t.Passenger_Count ≤ 10 ∧
    0 < t.Base_Fare ∧ 0 < t.Per_Km_Rate ∧ 0 < t.Per_Minute_Rate ∧
    0 < t.Trip_Duration_Minutes

instance (t : TripInput) : Decidable (tripValid t) := by
  unfold tripValid
  infer_instance

/-- trip.dict() followed by pd.DataFrame([input_data]): the one-row frame
whose columns are the raw field names in declaration order. -/
def TripInput.dict (t : TripInput) : Row :=
  [("Trip_Distance_km", Value.num t.Trip_Distance_km),
   ("Time_of_Day", Value.str t.Time_of_Day),
   ("Day_of_Week", Value.str t.Day_of_Week),
   ("Passenger_Count", Value.num t.Passenger_Count),
   ("Traffic_Conditions", Value.str t.Traffic_Conditions),
   ("Weather", Value.str t.Weather),
   ("Base_Fare", Value.num t.Base_Fare),
   ("Per_Km_Rate", Value.num t.Per_Km_Rate),
   ("Per_Minute_Rate", Value.num t.Per_Minute_Rate),
   ("Trip_Duration_Minutes", Value.num t.Trip_Duration_Minutes)]

/-- Step 2 of the pipeline, threading the process-wide artifact state:
for col in feature_info's categorical list, if col is among the row's
columns, replace df[col] with label_encoders[col].transform(df[col]).
No statement of the loop assigns to the artifact state. -/
def encodeCats : List String → Artifacts × Row → Except String (Artifacts × Row)
  | [], st => Except.ok st
  | c :: rest, st =>
    if c ∈ columnsOf st.2 then
      match lookupEnc st.1.label_encoders c with
      | none => Except.error (keyErrMsg c)
      | some e =>
        match lookupVal st.2 c with
        | none => Except.error (keyErrMsg c)
        | some v =>
          match LabelEncoder.transformV e v with
          | Except.ok code => encodeCats rest (st.1, setVal st.2 c (Value.num code))
          | Except.error m => Except.error m
    else encodeCats rest st

/-- Message of the pandas KeyError for selecting an absent column. -/
def notInIndexMsg (c : String) : String := "[" ++ sq ++ (c ++ (sq ++ "] not in index"))

/-- Message of the ValueError sklearn raises on a non-numeric cell. -/
def convertMsg (s : String) : String :=
  "could not convert string to float: " ++ sq ++ (s ++ sq)

/-- Selection df[numerical_features] flattened to the single row's values,
in the order of the given name list; raises on an absent column or a
still-string cell (which the scaler could not convert to float). -/
def selectNums (df : Row) : List String → Except String (List ℚ)
  | [] => Except.ok []
  | c :: rest =>
    match lookupVal df c with
    | none => Except.error (notInIndexMsg c)
    | some (Value.str s) => Except.error (convertMsg s)
    | some (Value.num q) =>
      match selectNums df rest with
      | Except.error m => Except.error m
      | Except.ok qs => Except.ok (q :: qs)

/-- Assignment df[numerical_features] = scaled: writes the i-th scaled
value back into the column named i-th in the list, by name. -/
def setNums : Row → List String → List ℚ → Row
  | df, [], _ => df
  | df, _ :: _, [] => df
  | df, c :: cs, v :: vs => setNums (setVal df c (Value.num v)) cs vs

/-- Step 3 of the pipeline:
df[numerical_features] = scaler.transform(df[numerical_features]). -/
def scaleRow (sc : StandardScaler) (nums : List String) (df : Row) :
    Except String Row :=
  match selectNums df nums with
  | Except.error m => Except.error m
  | Except.ok sub =>
    match StandardScaler.transform sc sub with
    | Except.error m => Except.error m
    | Except.ok scaled => Except.ok (setNums df nums scaled)

/-- Floor of a rational (executable). -/
def ifloor (q : ℚ) : ℤ := q.num.fdiv q.den

/-- Round-half-to-even to the nearest integer, as Python's round does. -/
def roundHalfEven (q : ℚ) : ℤ :=
  let f := ifloor q
  let frac := q - (f : ℚ)
  if frac < 1/2 then f
  else if (1 : ℚ)/2 < frac then f + 1
  else if f % 2 = 0 then f else f + 1

/-- round(x, 2) of api.py: round to 2 decimal places. -/
def round2 (q : ℚ) : ℚ := ((roundHalfEven (q * 100) : ℤ) : ℚ) / 100

/-- The response body on success; currency defaults to the fixed "SEK". -/
structure PredictionResponse where
  predicted_price : ℚ
  currency : String := "SEK"
deriving DecidableEq

/-- An HTTP error response: status code and detail message. -/
structure HttpError where
  status : ℕ
  detail : String
deriving DecidableEq

/-- Message of the IndexError raised by model.predict(df)[0] on an empty
output array. -/
def indexMsg : String := "index 0 is out of bounds for axis 0 with size 0"

/-- The try-block of predict_price (steps 1-5), threading the artifact
state: encode categoricals, scale numericals, run the model, take output
0, round to 2 decimals and wrap in a PredictionResponse. -/
def pipelineST (st : Artifacts × Row) :
    Except String (Artifacts × PredictionResponse) :=
  match encodeCats st.1.feature_info.categorical_features st with
  | Except.error m => Except.error m
  | Except.ok st2 =>
    match scaleRow st2.1.scaler st2.1.feature_info.numerical_features st2.2 with
    | Except.error m => Except.error m
    | Except.ok df2 =>
      match st2.1.model df2 with
      | Except.error m => Except.error m
      | Except.ok [] => Except.error indexMsg
      | Except.ok (q :: _) =>
        Except.ok (st2.1, { predicted_price := round2 q })

/-- predict_price with its except-handler: any exception raised inside the
try-block becomes HTTPException(500, "Prediction error: " + str(e)).
The second component is the artifact state after the call. -/
def predictST (A : Artifacts) (t : TripInput) :
    (Except HttpError PredictionResponse) × Artifacts :=
  match pipelineST (A, TripInput.dict t) with
  | Except.ok (A2, r) => (Except.ok r, A2)
  | Except.error m =>
    (Except.error { status := 500, detail := "Prediction error: " ++ m }, A)

/-- Stand-in for the structured body FastAPI builds for a 422 response;
the claims only depend on the status code of that response. -/
def validationDetail : String := "Input validation failed"

/-- POST /predict end to end: FastAPI validates the body against the
pydantic Field constraints and answers 422 without entering the handler
when they fail; otherwise it runs predict_price. -/
def postPredict (A : Artifacts) (t : TripInput) :
    (Except HttpError PredictionResponse) × Artifacts :=
  if tripValid t then predictST A t
  else (Except.error { status := 422, detail := validationDetail }, A)

/-- Projection of an optional cell to a float field (pydantic by name). -/
def asNum : Option Value → Option ℚ
  | some (Value.num q) => some q
  | _ => none

/-- Projection of an optional cell to a string field (pydantic by name). -/
def asStr : Option Value → Option String
  | some (Value.str s) => some s
  | _ => none

/-- Parsing of a JSON request body (an ordered list of field-name/value
pairs) into a TripInput: every field is fetched by name, as pydantic
does, so the order of the pairs is immaterial. -/
def parseTrip (body : Row) : Option TripInput :=
  match asNum (lookupVal body "Trip_Distance_km"),
      asStr (lookupVal body "Time_of_Day"),
      asStr (lookupVal body "Day_of_Week"),
      asNum (lookupVal body "Passenger_Count"),
      asStr (lookupVal body "Traffic_Conditions"),
      asStr (lookupVal body "Weather"),
      asNum (lookupVal body "Base_Fare"),
      asNum (lookupVal body "Per_Km_Rate"),
      asNum (lookupVal body "Per_Minute_Rate"),
      asNum (lookupVal body "Trip_Duration_Minutes") with
  | some d, some tod, some dow, some pc, some tc, some w, some bf, some pkr,
      some pmr, some tdm =>
    some ⟨d, tod, dow, pc, tc, w, bf, pkr, pmr, tdm⟩
  | _, _, _, _, _, _, _, _, _, _ => none

/-! Client application (src/src/taxipred/frontend/app.py). -/

/-- The HTTP response the client sees: status code, and the body fields
it may read (predicted_price and currency on 200, detail on an error). -/
structure ServerResp where
  status : ℕ
  predicted_price : ℚ
  currency : String
  detail : String
deriving DecidableEq

/-- Outcome of the client's requests.post call: a server response, a
requests ConnectionError, or some other exception with its message. -/
inductive PostOutcome where
  | resp (r : ServerResp)
  | connError
  | exc (msg : String)
deriving DecidableEq

/-- What the client renders at the end of a prediction attempt: a price
headline or an error box. -/
inductive Shown where
  | price (text : String)
  | error (text : String)
deriving DecidableEq

/-- The error/success branches of the basic-prediction button handler:
on 200 show the price, otherwise st.error with the status code, on a
ConnectionError the fixed connection message, on any other exception its
message. -/
def basicShown : PostOutcome → Shown
  | PostOutcome.resp r =>
    if r.status = 200 then Shown.price (toString r.predicted_price ++ " " ++ r.currency)
    else Shown.error ("Error: " ++ toString r.status)
  | PostOutcome.connError => Shown.error "Cannot connect to backend API"
  | PostOutcome.exc m => Shown.error ("Error: " ++ m)

/-- A geocoded coordinate pair. -/
structure Coord where
  lat : ℚ
  lon : ℚ
deriving DecidableEq

/-- The secondary-form parameters of the route tab. -/
structure RouteParams where
  route_time : String
  route_day : String
  route_passengers : ℚ
  route_traffic : String
  route_weather : String
  route_base : ℚ
  route_km_rate : ℚ
  route_min_rate : ℚ
  route_duration : ℚ
deriving DecidableEq

/-- The trip_data dict the route tab posts: the geodesic distance
substituted for Trip_Distance_km, the rest from the parameter forms. -/
def mkRouteTrip (d : ℚ) (p : RouteParams) : TripInput :=
  { Trip_Distance_km := d, Time_of_Day := p.route_time,
    Day_of_Week := p.route_day, Passenger_Count := p.route_passengers,
    Traffic_Conditions := p.route_traffic, Weather := p.route_weather,
    Base_Fare := p.route_base, Per_Km_Rate := p.route_km_rate,
    Per_Minute_Rate := p.route_min_rate,
    Trip_Duration_Minutes := p.route_duration }

/-- What the route tab stores in st.session_state.route_result. -/
inductive RouteResult where
  | success (from_location to_location : String)
      (distance_km predicted_price : ℚ) (currency : String)
  | failure (error : String)
deriving DecidableEq

/-- The geocoding-failure message for one place name. -/
def couldNotFind (loc : String) : String := "Could not find location: " ++ loc

/-- The Calculate Route and Price button handler. Inputs are the two
place names, the geocoder, the geodesic-distance capability and the HTTP
post capability; the Boolean records whether requests.post was reached.
If either place fails to geocode, the error messages are joined with
a vertical-bar separator and no post happens. -/
def routeButton (geocode : String → Option Coord) (dist : Coord → Coord → ℚ)
    (post : TripInput → PostOutcome) (fromLoc toLoc : String)
    (p : RouteParams) : RouteResult × Bool :=
  match geocode fromLoc, geocode toLoc with
  | some fl, some tl =>
    (match post (mkRouteTrip (dist fl tl) p) with
     | PostOutcome.resp r =>
       if r.status = 200 then
         (RouteResult.success fromLoc toLoc (dist fl tl) r.predicted_price r.currency, true)
       else (RouteResult.failure ("Prediction error: " ++ toString r.status), true)
     | PostOutcome.connError =>
       (RouteResult.failure "Cannot connect to host localhost", true)
     | PostOutcome.exc m => (RouteResult.failure m, true))
  | none, some _ => (RouteResult.failure (couldNotFind fromLoc), false)
  | some _, none => (RouteResult.failure (couldNotFind toLoc), false)
  | none, none =>
    (RouteResult.failure (couldNotFind fromLoc ++ (" | " ++ couldNotFind toLoc)), false)

/-- Rendering of the stored route result: price headline on success, an
st.error box with a cross mark otherwise. -/
def routeShown : RouteResult → Shown
  | RouteResult.success _ _ _ p cur => Shown.price (toString p ++ " " ++ cur)
  | RouteResult.failure e => Shown.error ("❌ " ++ e)

/-! Substring occurrence, used to state what a message names. -/

/-- Whether the first character list is an initial segment of the second. -/
def listLeads : List Char → List Char → Bool
  | [], _ => true
  | _ :: _, [] => false
  | a :: as, b :: bs => a = b && listLeads as bs

/-- Whether the first character list occurs contiguously in the second. -/
def subChars (needle : List Char) : List Char → Bool
  | [] => listLeads needle []
  | b :: bs => listLeads needle (b :: bs) || subChars needle bs

/-- Whether the needle occurs as a contiguous substring of the haystack. -/
def occursIn (needle hay : String) : Bool := subChars needle.data hay.data

/-! Concrete artifact set and inputs used by witnesses: four encoders
with the vocabularies of the training data, a six-column scaler, and an
opaque model returning a fixed one-element array. -/

def teTime : LabelEncoder := { classes := ["Afternoon", "Evening", "Morning"] }

def teDay : LabelEncoder := { classes := ["Weekday", "Weekend"] }

def teTraffic : LabelEncoder := { classes := ["High", "Low", "Medium"] }

def teWeather : LabelEncoder := { classes := ["Clear", "Fog", "Rain"] }

def cInfo : FeatureInfo :=
  { categorical_features :=
      ["Time_of_Day", "Day_of_Week", "Traffic_Conditions", "Weather"],
    numerical_features :=
      ["Trip_Distance_km", "Passenger_Count", "Base_Fare", "Per_Km_Rate",
       "Per_Minute_Rate", "Trip_Duration_Minutes"] }

def cScaler : StandardScaler :=
  { mean := [10, 2, 3, 1, 1, 20], scale := [5, 1, 2, 1, 1, 10] }

def cEncs : List (String × LabelEncoder) :=
  [("Time_of_Day", teTime), ("Day_of_Week", teDay),
   ("Traffic_Conditions", teTraffic), ("Weather", teWeather)]

def cModel : Row → Except String (List ℚ) := fun _ => Except.ok [123456/1000]

def cA : Artifacts :=
  { model := cModel, scaler := cScaler, label_encoders := cEncs,
    feature_info := cInfo }

def cBad : Artifacts :=
  { model := fun _ => Except.error "boom", scaler := cScaler,
    label_encoders := cEncs, feature_info := cInfo }

def tGood : TripInput :=
  { Trip_Distance_km := 15, Time_of_Day := "Morning", Day_of_Week := "Weekday",
    Passenger_Count := 2, Traffic_Conditions := "Medium", Weather := "Clear",
    Base_Fare := 4, Per_Km_Rate := 2, Per_Minute_Rate := 1,
    Trip_Duration_Minutes := 25 }

def tMid : TripInput := { tGood with Time_of_Day := "Midnight" }

def tZero : TripInput := { tGood with Trip_Distance_km := 0 }

/-- A distance just below zero: the rational -1/1000, written as an
explicit normalized fraction so it evaluates in the kernel. -/
def negSmall : ℚ := ⟨-1, 1000, by decide, by decide⟩

def tNeg : TripInput := { tGood with Trip_Distance_km := negSmall }

/-- Request body of tGood in field order, as a JSON object. -/
def bW1 : Row := TripInput.dict tGood

/-- The same ten field-name/value pairs with the first two swapped. -/
def bW2 : Row :=
  ("Time_of_Day", Value.str "Morning") ::
    ("Trip_Distance_km", Value.num 15) ::
    [("Day_of_Week", Value.str "Weekday"),
     ("Passenger_Count", Value.num 2),
     ("Traffic_Conditions", Value.str "Medium"),
     ("Weather", Value.str "Clear"),
     ("Base_Fare", Value.num 4),
     ("Per_Km_Rate", Value.num 2),
     ("Per_Minute_Rate", Value.num 1),
     ("Trip_Duration_Minutes", Value.num 25)]

/-- A one-column scaler and a two-column row used to exercise step 3. -/
def wSc : StandardScaler := { mean := [1], scale := [2] }

def wDf : Row := [("x", Value.num 3), ("y", Value.str "a")]

def wDf2 : Row := [("x", Value.num ((3 - 1) / 2)), ("y", Value.str "a")]

/-- Route-tab parameter form values used by witnesses. -/
def wParams : RouteParams :=
  { route_time := "Morning", route_day := "Weekday", route_passengers := 2,
    route_traffic := "Medium", route_weather := "Clear", route_base := 4,
    route_km_rate := 2, route_min_rate := 1, route_duration := 180 }

/-- A geocoder that resolves nothing. -/
def gNone : String → Option Coord := fun _ => none

/-- A geodesic-distance capability (value irrelevant to the claims). -/
def dZero : Coord → Coord → ℚ := fun _ _ => 0

/-- A post capability whose call always fails to connect. -/
def pConn : TripInput → PostOutcome := fun _ => PostOutcome.connError

/-- A 500 response whose body carries a detail message. -/
def sResp : ServerResp :=
  { status := 500, predicted_price := 0, currency := "SEK",
    detail := "Prediction error: boom" }

/-! Helper lemmas about the row operations. -/

theorem lookupVal_mem : ∀ {df : Row} {c : String} {v : Value},
    lookupVal df c = some v → c ∈ columnsOf df := by
  intro df
  induction df with
  | nil => intro c v h; exact absurd h (by simp [lookupVal])
  | cons p l ih =>
    intro c v h
    simp only [lookupVal] at h
    simp only [columnsOf, List.mem_cons]
    by_cases hp : p.1 = c
    · exact Or.inl hp.symm
    · rw [if_neg hp] at h
      exact Or.inr (ih h)

theorem columnsOf_setVal (df : Row) (c : String) (v : Value) :
    columnsOf (setVal df c v) = columnsOf df := by
  induction df with
  | nil => rfl
  | cons p l ih =>
    simp only [setVal, columnsOf]
    by_cases hp : p.1 = c
    · rw [if_pos hp, ih, hp]
    · rw [if_neg hp, ih]

theorem lookupVal_setVal_ne (df : Row) (c c2 : String) (v : Value) (h : c2 ≠ c) :
    lookupVal (setVal df c v) c2 = lookupVal df c2 := by
  induction df with
  | nil => rfl
  | cons p l ih =>
    simp only [setVal, lookupVal]
    by_cases hp : p.1 = c
    · rw [if_pos hp]
      dsimp only
      rw [if_neg (fun he => h he.symm), if_neg (fun he => h (he.symm.trans hp))]
      exact ih
    · rw [if_neg hp]
      by_cases hp2 : p.1 = c2
      · rw [if_pos hp2, if_pos hp2]
      · rw [if_neg hp2, if_neg hp2]
        exact ih

theorem lookupVal_setVal_self (df : Row) (c : String) (v : Value)
    (h : c ∈ columnsOf df) : lookupVal (setVal df c v) c = some v := by
  induction df with
  | nil => simp [columnsOf] at h
  | cons p l ih =>
    simp only [setVal, lookupVal]
    by_cases hp : p.1 = c
    · rw [if_pos hp]
      dsimp only
      rw [if_pos rfl]
    · rw [if_neg hp]
      rw [if_neg hp]
      simp only [columnsOf, List.mem_cons] at h
      rcases h with h | h
      · exact absurd h.symm hp
      · exact ih h

theorem columnsOf_setNums : ∀ (cs : List String) (vs : List ℚ) (df : Row),
    columnsOf (setNums df cs vs) = columnsOf df := by
  intro cs
  induction cs with
  | nil => intro vs df; rfl
  | cons c cs ih =>
    intro vs df
    cases vs with
    | nil => rfl
    | cons v vs =>
      simp only [setNums]
      rw [ih, columnsOf_setVal]

theorem lookupVal_setNums_not_mem : ∀ (cs : List String) (vs : List ℚ)
    (df : Row) (c : String), c ∉ cs →
    lookupVal (setNums df cs vs) c = lookupVal df c := by
  intro cs
  induction cs with
  | nil => intro vs df c _; rfl
  | cons c0 cs ih =>
    intro vs df c h
    cases vs with
    | nil => rfl
    | cons v vs =>
      simp only [setNums]
      have h1 : c ∉ cs := fun hc => h (List.mem_cons_of_mem _ hc)
      have h2 : c ≠ c0 := fun hc => h (hc ▸ List.mem_cons_self _ _)
      rw [ih vs _ c h1, lookupVal_setVal_ne _ _ _ _ h2]

theorem lookupVal_setNums_zip : ∀ (cs : List String) (vs : List ℚ) (df : Row),
    cs.Nodup → (∀ c ∈ cs, c ∈ columnsOf df) →
    ∀ p ∈ cs.zip vs, lookupVal (setNums df cs vs) p.1 = some (Value.num p.2) := by
  intro cs
  induction cs with
  | nil => intro vs df _ _ p hp; simp at hp
  | cons c0 cs ih =>
    intro vs df hnd hmem p hp
    cases vs with
    | nil => simp at hp
    | cons v vs =>
      simp only [List.zip_cons_cons, List.mem_cons] at hp
      simp only [setNums]
      rcases hp with hp | hp
      · subst hp
        have hc0 : c0 ∉ cs := (List.nodup_cons.mp hnd).1
        rw [lookupVal_setNums_not_mem cs vs _ c0 hc0]
        exact lookupVal_setVal_self df c0 _ (hmem c0 (List.mem_cons_self _ _))
      · apply ih vs (setVal df c0 (Value.num v)) (List.nodup_cons.mp hnd).2 _ p hp
        intro c hc
        rw [columnsOf_setVal]
        exact hmem c (List.mem_cons_of_mem _ hc)

theorem selectNums_ok_mem : ∀ (cs : List String) (df : Row) (sub : List ℚ),
    selectNums df cs = Except.ok sub → ∀ c ∈ cs, c ∈ columnsOf df := by
  intro cs
  induction cs with
  | nil => intro df sub _ c hc; simp at hc
  | cons c0 cs ih =>
    intro df sub h c hc
    simp only [selectNums] at h
    cases hL : lookupVal df c0 with
    | none => rw [hL] at h; exact Except.noConfusion h
    | some val =>
      rw [hL] at h
      cases val with
      | str s => exact Except.noConfusion h
      | num q =>
        cases hR : selectNums df cs with
        | error m => rw [hR] at h; exact Except.noConfusion h
        | ok qs =>
          rw [hR] at h
          rcases List.mem_cons.mp hc with hc | hc
          · subst hc; exact lookupVal_mem hL
          · exact ih df qs hR c hc

/-! Helper lemmas about the encoder vocabulary. -/

theorem vocabIndex_some_mem : ∀ (l : List String) (s : String) (i : ℕ),
    vocabIndex l s = some i → s ∈ l := by
  intro l
  induction l with
  | nil => intro s i h; exact absurd h (by simp [vocabIndex])
  | cons a l ih =>
    intro s i h
    simp only [vocabIndex] at h
    by_cases ha : a = s
    · exact ha ▸ List.mem_cons_self _ _
    · rw [if_neg ha] at h
      cases hv : vocabIndex l s with
      | none => rw [hv] at h; exact Option.noConfusion h
      | some j => exact List.mem_cons_of_mem _ (ih s j hv)

theorem vocabIndex_none (l : List String) (s : String) (h : s ∉ l) :
    vocabIndex l s = none := by
  induction l with
  | nil => rfl
  | cons a l ih =>
    simp only [vocabIndex]
    have ha : a ≠ s := fun he => h (he ▸ List.mem_cons_self _ _)
    rw [if_neg ha, ih (fun hc => h (List.mem_cons_of_mem _ hc))]
    rfl

/-! Helper lemmas about the state threading of the pipeline. -/

theorem encodeCats_fst : ∀ (cats : List String) (st st2 : Artifacts × Row),
    encodeCats cats st = Except.ok st2 → st2.1 = st.1 := by
  intro cats
  induction cats with
  | nil =>
    intro st st2 h
    simp only [encodeCats] at h
    injection h with h2
    rw [← h2]
  | cons c rest ih =>
    intro st st2 h
    simp only [encodeCats] at h
    split at h
    · split at h
      · exact Except.noConfusion h
      · split at h
        · exact Except.noConfusion h
        · split at h
          · have h2 := ih _ _ h
            exact h2
          · exact Except.noConfusion h
    · exact ih _ _ h

theorem pipelineST_fst (st : Artifacts × Row) (A2 : Artifacts)
    (r : PredictionResponse) (h : pipelineST st = Except.ok (A2, r)) :
    A2 = st.1 := by
  simp only [pipelineST] at h
  split at h
  · exact Except.noConfusion h
  · rename_i st2 hE
    split at h
    · exact Except.noConfusion h
    · split at h
      · exact Except.noConfusion h
      · exact Except.noConfusion h
      · injection h with h2
        have h3 : st2.1 = A2 := congrArg Prod.fst h2
        rw [← h3]
        exact encodeCats_fst _ _ _ hE

theorem encodeCats_ok_vocab : ∀ (cats : List String) (st st2 : Artifacts × Row),
    encodeCats cats st = Except.ok st2 →
    ∀ c ∈ cats, ∀ s, lookupVal st.2 c = some (Value.str s) →
    ∃ e, lookupEnc st.1.label_encoders c = some e ∧ s ∈ e.classes := by
  intro cats
  induction cats with
  | nil => intro st st2 _ c hc; exact absurd hc (List.not_mem_nil c)
  | cons c0 rest ih =>
    intro st st2 h c hc s hs
    simp only [encodeCats] at h
    split at h
    · rename_i hc0
      split at h
      · exact Except.noConfusion h
      · rename_i e hE
        split at h
        · exact Except.noConfusion h
        · rename_i v hL
          split at h
          · rename_i code hT
            by_cases hcc : c = c0
            · subst hcc
              rw [hs] at hL
              injection hL with hv
              refine ⟨e, hE, ?_⟩
              rw [← hv] at hT
              simp only [LabelEncoder.transformV] at hT
              cases hv2 : vocabIndex e.classes s with
              | none => rw [hv2] at hT; exact Except.noConfusion hT
              | some i => exact vocabIndex_some_mem _ _ _ hv2
            · rcases List.mem_cons.mp hc with hceq | hcr
              · exact absurd hceq hcc
              · apply ih _ _ h c hcr s
                rw [lookupVal_setVal_ne _ _ _ _ hcc]
                exact hs
          · exact Except.noConfusion h
    · rename_i hc0
      rcases List.mem_cons.mp hc with hceq | hcr
      · subst hceq
        exact absurd (lookupVal_mem hs) hc0
      · exact ih _ _ h c hcr s hs

/-! Helper lemmas about substring occurrence. -/

theorem listLeads_append : ∀ (xs ys : List Char), listLeads xs (xs ++ ys) = true := by
  intro xs
  induction xs with
  | nil => intro ys; rfl
  | cons a as ih =>
    intro ys
    simp only [List.cons_append, listLeads, List.append_eq]
    rw [ih]
    simp

theorem subChars_of_leads (n h : List Char) (hl : listLeads n h = true) :
    subChars n h = true := by
  cases h with
  | nil => exact hl
  | cons b bs =>
    simp only [subChars]
    rw [hl]
    rfl

theorem subChars_append_left : ∀ (x n h : List Char), subChars n h = true →
    subChars n (x ++ h) = true := by
  intro x
  induction x with
  | nil => intro n h hh; exact hh
  | cons b bs ih =>
    intro n h hh
    simp only [List.cons_append, subChars, List.append_eq]
    rw [ih n h hh]
    simp

theorem occursIn_left (a b : String) : occursIn a (a ++ b) = true := by
  unfold occursIn
  rw [String.data_append]
  exact subChars_of_leads _ _ (listLeads_append _ _)

theorem occursIn_right (a b : String) : occursIn b (a ++ b) = true := by
  unfold occursIn
  rw [String.data_append]
  apply subChars_append_left
  have h : listLeads b.data (b.data ++ []) = true := listLeads_append _ _
  rw [List.append_nil] at h
  exact subChars_of_leads _ _ h

theorem occursIn_mid (a b c : String) : occursIn b (a ++ (b ++ c)) = true := by
  unfold occursIn
  rw [String.data_append, String.data_append]
  exact subChars_append_left _ _ _ (subChars_of_leads _ _ (listLeads_append _ _))

/-! Helper lemmas for field-order invariance. -/

theorem columnsOf_eq_map (l : Row) : columnsOf l = l.map Prod.fst := by
  induction l with
  | nil => rfl
  | cons p l ih => simp [columnsOf, ih]

theorem lookupVal_perm (k : String) : ∀ {b1 b2 : Row}, b1.Perm b2 →
    (columnsOf b1).Nodup → lookupVal b1 k = lookupVal b2 k := by
  intro b1 b2 hp
  induction hp with
  | nil => intro _; rfl
  | cons x hp ih =>
    intro hn
    simp only [lookupVal]
    by_cases hx : x.1 = k
    · rw [if_pos hx, if_pos hx]
    · rw [if_neg hx, if_neg hx]
      apply ih
      simp only [columnsOf, List.nodup_cons] at hn
      exact hn.2
  | swap x y l =>
    intro hn
    simp only [columnsOf, List.nodup_cons, List.mem_cons] at hn
    have hyx : y.1 ≠ x.1 := fun he => hn.1 (Or.inl he)
    simp only [lookupVal]
    by_cases hy : y.1 = k <;> by_cases hx : x.1 = k
    · exact absurd (hy.trans hx.symm) hyx
    · rw [if_pos hy, if_neg hx, if_pos hy]
    · rw [if_neg hy, if_pos hx, if_pos hx]
    · rw [if_neg hy, if_neg hx, if_neg hx, if_neg hy]
  | trans h12 h23 ih1 ih2 =>
    intro hn
    refine (ih1 hn).trans (ih2 ?_)
    have hperm : _ := h12.map (Prod.fst (α := String) (β := Value))
    rw [← columnsOf_eq_map, ← columnsOf_eq_map] at hperm
    exact hperm.nodup_iff.mp hn

theorem occursIn_self (a : String) : occursIn a a = true := by
  unfold occursIn
  have h : listLeads a.data (a.data ++ []) = true := listLeads_append _ _
  rw [List.append_nil] at h
  exact subChars_of_leads _ _ h

theorem occursIn_right2 (a b c : String) : occursIn c (a ++ (b ++ c)) = true := by
  unfold occursIn
  rw [String.data_append, String.data_append]
  apply subChars_append_left
  apply subChars_append_left
  have h : listLeads c.data (c.data ++ []) = true := listLeads_append _ _
  rw [List.append_nil] at h
  exact subChars_of_leads _ _ h

/-- Inversion of a successful end-to-end call: every pipeline stage
succeeded, on the unchanged artifacts, and the response is the rounded
first model output. -/
theorem postPredict_ok_inv (A : Artifacts) (t : TripInput)
    (r : PredictionResponse) (h : (postPredict A t).1 = Except.ok r) :
    ∃ st2 df2 q qs,
      encodeCats A.feature_info.categorical_features (A, TripInput.dict t) =
        Except.ok st2 ∧
      scaleRow A.scaler A.feature_info.numerical_features st2.2 =
        Except.ok df2 ∧
      A.model df2 = Except.ok (q :: qs) ∧
      r = { predicted_price := round2 q, currency := "SEK" } := by
  unfold postPredict at h
  by_cases hv : tripValid t
  · rw [if_pos hv] at h
    unfold predictST at h
    cases hP : pipelineST (A, TripInput.dict t) with
    | error m =>
      rw [hP] at h
      exact Except.noConfusion h
    | ok pr =>
      obtain ⟨A2, r2⟩ := pr
      rw [hP] at h
      have h2 : Except.ok (ε := HttpError) r2 = Except.ok r := h
      injection h2 with hr
      subst hr
      simp only [pipelineST] at hP
      split at hP
      · exact Except.noConfusion hP
      · rename_i st2 hE
        split at hP
        · exact Except.noConfusion hP
        · rename_i df2 hS
          split at hP
          · exact Except.noConfusion hP
          · exact Except.noConfusion hP
          · rename_i q qs hM
            injection hP with hpair
            have hA : st2.1 = A := encodeCats_fst _ _ _ hE
            have hr2 : r2 = { predicted_price := round2 q, currency := "SEK" } :=
              (congrArg Prod.snd hpair).symm
            refine ⟨st2, df2, q, qs, hE, ?_, ?_, hr2⟩
            · rw [← hA]
              exact hS
            · rw [← hA]
              exact hM
  · rw [if_neg hv] at h
    exact Except.noConfusion h

/-- When the first categorical feature carries an unfitted label, step 2
raises the sklearn unseen-label ValueError. -/
theorem encodeCats_head_unseen (A : Artifacts) (df : Row) (c : String)
    (rest : List String) (e : LabelEncoder) (s : String)
    (hc : c ∈ columnsOf df) (hE : lookupEnc A.label_encoders c = some e)
    (hs : lookupVal df c = some (Value.str s)) (hm : s ∉ e.classes) :
    encodeCats (c :: rest) (A, df) = Except.error (unseenMsg s) := by
  have hT : LabelEncoder.transformV e (Value.str s) = Except.error (unseenMsg s) := by
    simp only [LabelEncoder.transformV]
    rw [vocabIndex_none e.classes s hm]
  simp only [encodeCats]
  rw [if_pos hc]
  simp only [hE, hs, hT]

/-! The claims. -/

/-- C1, amended: a request whose categorical field carries a value outside
the encoder's fitted vocabulary never succeeds (a successful call proves
every string-valued categorical column was in its encoder's vocabulary, so
an unseen label is never silently encoded), and when the offending field
is the first categorical feature the call fails with a 500 whose detail is
the unseen-label ValueError message, which names the offending value.
(The original claim also required the failure to name the offending field;
the counterexample shows it does not.) -/
theorem unknown_category_rejected :
    (∀ (A : Artifacts) (t : TripInput) (r : PredictionResponse),
        (postPredict A t).1 = Except.ok r →
        ∀ c ∈ A.feature_info.categorical_features, ∀ s,
          lookupVal (TripInput.dict t) c = some (Value.str s) →
          ∃ e, lookupEnc A.label_encoders c = some e ∧ s ∈ e.classes) ∧
    (∀ (A : Artifacts) (t : TripInput) (c : String) (rest : List String)
        (e : LabelEncoder) (s : String),
        A.feature_info.categorical_features = c :: rest →
        lookupEnc A.label_encoders c = some e →
        lookupVal (TripInput.dict t) c = some (Value.str s) →
        s ∉ e.classes → tripValid t →
        (postPredict A t).1 = Except.error
          { status := 500, detail := "Prediction error: " ++ unseenMsg s } ∧
        occursIn s (unseenMsg s) = true) := by
  constructor
  · intro A t r h c hc s hs
    obtain ⟨st2, df2, q, qs, hE, _, _, _⟩ := postPredict_ok_inv A t r h
    exact encodeCats_ok_vocab _ _ _ hE c hc s hs
  · intro A t c rest e s hFeat hE hs hm hv
    have hc : c ∈ columnsOf (TripInput.dict t) := lookupVal_mem hs
    have hEnc := encodeCats_head_unseen A (TripInput.dict t) c rest e s hc hE hs hm
    have hPipe : pipelineST (A, TripInput.dict t) = Except.error (unseenMsg s) := by
      simp only [pipelineST]
      rw [hFeat, hEnc]
    refine ⟨?_, ?_⟩
    · unfold postPredict
      rw [if_pos hv]
      unfold predictST
      rw [hPipe]
    · unfold unseenMsg
      exact occursIn_mid _ _ _

/-- C1, counterexample to the claim as stated: with the fitted vocabulary
Afternoon/Evening/Morning, the request with Time_of_Day set to Midnight
fails, and the failure detail names the value Midnight but does not name
the field Time_of_Day. -/
theorem unknown_category_counterexample :
    (postPredict cA tMid).1 = Except.error
      { status := 500, detail := "Prediction error: " ++ unseenMsg "Midnight" } ∧
    occursIn "Midnight" ("Prediction error: " ++ unseenMsg "Midnight") = true ∧
    occursIn "Time_of_Day" ("Prediction error: " ++ unseenMsg "Midnight") = false :=
  ⟨rfl, by decide, by decide⟩

/-- Witness for C1: both conjuncts instantiated at the concrete artifact
set, the first at a successful call, the second at the Midnight request. -/
theorem unknown_category_rejected_witness :
    (∃ e, lookupEnc cA.label_encoders "Time_of_Day" = some e ∧
      "Morning" ∈ e.classes) ∧
    (postPredict cA tMid).1 = Except.error
      { status := 500, detail := "Prediction error: " ++ unseenMsg "Midnight" } :=
  ⟨unknown_category_rejected.1 cA tGood
      { predicted_price := round2 (123456/1000), currency := "SEK" } rfl
      "Time_of_Day" (by decide) "Morning" rfl,
   (unknown_category_rejected.2 cA tMid "Time_of_Day"
      ["Day_of_Week", "Traffic_Conditions", "Weather"] teTime "Midnight"
      rfl rfl rfl (by decide) (by decide)).1⟩

/-- C2: for a request that passes validation, any exception raised inside
the try-block of predict_price yields exactly the 500 response whose
detail is the prefix string followed by the exception message, and no
PredictionResponse is returned. -/
theorem pipeline_error_maps_to_500 (A : Artifacts) (t : TripInput) (m : String)
    (hv : tripValid t)
    (h : pipelineST (A, TripInput.dict t) = Except.error m) :
    (postPredict A t).1 =
      Except.error { status := 500, detail := "Prediction error: " ++ m } ∧
    ∀ r : PredictionResponse, (postPredict A t).1 ≠ Except.ok r := by
  have h1 : (postPredict A t).1 =
      Except.error { status := 500, detail := "Prediction error: " ++ m } := by
    unfold postPredict
    rw [if_pos hv]
    unfold predictST
    rw [h]
  refine ⟨h1, ?_⟩
  rw [h1]
  intro r hr
  exact Except.noConfusion hr

/-- Witness for C2: an artifact set whose model raises is answered with
the 500 response carrying the raw exception message. -/
theorem pipeline_error_maps_to_500_witness :
    tripValid tGood ∧ (postPredict cBad tGood).1 =
      Except.error { status := 500, detail := "Prediction error: boom" } :=
  ⟨by decide, (pipeline_error_maps_to_500 cBad tGood "boom" (by decide) rfl).1⟩

/-- C3: a request body violating any pydantic Field constraint is answered
422, the answer does not depend on the loaded artifacts (the handler, and
hence the model, is never entered), and the artifact state is untouched. -/
theorem invalid_input_rejected_422 (A : Artifacts) (t : TripInput)
    (h : t.Trip_Distance_km ≤ 0 ∨ t.Passenger_Count ≤ 0 ∨
      10 < t.Passenger_Count ∨ t.Base_Fare ≤ 0 ∨ t.Per_Km_Rate ≤ 0 ∨
      t.Per_Minute_Rate ≤ 0 ∨ t.Trip_Duration_Minutes ≤ 0) :
    (postPredict A t).1 =
      Except.error { status := 422, detail := validationDetail } ∧
    (∀ A2 : Artifacts, (postPredict A2 t).1 = (postPredict A t).1) ∧
    (postPredict A t).2 = A := by
  have hv : ¬ tripValid t := by
    intro hc
    obtain ⟨c1, c2, c3, c4, c5, c6, c7⟩ := hc
    rcases h with h | h | h | h | h | h | h
    · exact absurd c1 (not_lt.mpr h)
    · exact absurd c2 (not_lt.mpr h)
    · exact absurd h (not_lt.mpr c3)
    · exact absurd c4 (not_lt.mpr h)
    · exact absurd c5 (not_lt.mpr h)
    · exact absurd c6 (not_lt.mpr h)
    · exact absurd c7 (not_lt.mpr h)
  refine ⟨?_, ?_, ?_⟩
  · unfold postPredict
    rw [if_neg hv]
  · intro A2
    unfold postPredict
    rw [if_neg hv, if_neg hv]
  · unfold postPredict
    rw [if_neg hv]

/-- Witness for C3: the boundary cases, distance exactly 0 and distance
-1/1000, are both rejected with 422. -/
theorem invalid_input_rejected_422_witness :
    (postPredict cA tZero).1 =
      Except.error { status := 422, detail := validationDetail } ∧
    (postPredict cA tNeg).1 =
      Except.error { status := 422, detail := validationDetail } :=
  ⟨(invalid_input_rejected_422 cA tZero (Or.inl (by decide))).1,
   (invalid_input_rejected_422 cA tNeg (Or.inl (by decide))).1⟩

/-- C4: every successful response carries the fixed currency SEK and a
predicted_price equal to the model's first (only) output rounded to two
decimal places, hence an integer multiple of one hundredth. -/
theorem success_rounded_sek (A : Artifacts) (t : TripInput)
    (r : PredictionResponse) (h : (postPredict A t).1 = Except.ok r) :
    r.currency = "SEK" ∧
    (∃ df out q, A.model df = Except.ok out ∧ out.head? = some q ∧
      r.predicted_price = round2 q) ∧
    ∃ n : ℤ, r.predicted_price = (n : ℚ) / 100 := by
  obtain ⟨st2, df2, q, qs, hE, hS, hM, hr⟩ := postPredict_ok_inv A t r h
  subst hr
  exact ⟨rfl, ⟨df2, q :: qs, q, hM, rfl, rfl⟩, ⟨roundHalfEven (q * 100), rfl⟩⟩

/-- Witness for C4: the concrete artifact set answers tGood with the
rounded model output and the SEK currency tag. -/
theorem success_rounded_sek_witness :
    ({ predicted_price := round2 (123456/1000), currency := "SEK" }
        : PredictionResponse).currency = "SEK" ∧
    (∃ df out q, cA.model df = Except.ok out ∧ out.head? = some q ∧
      ({ predicted_price := round2 (123456/1000), currency := "SEK" }
        : PredictionResponse).predicted_price = round2 q) ∧
    ∃ n : ℤ, ({ predicted_price := round2 (123456/1000), currency := "SEK" }
        : PredictionResponse).predicted_price = (n : ℚ) / 100 :=
  success_rounded_sek cA tGood _ rfl

/-- C5: two request bodies carrying the same field-name/value pairs in
different orders parse to the same TripInput and are answered identically,
because every field is selected by name. -/
theorem field_order_irrelevant (A : Artifacts) (b1 b2 : Row) (hp : b1.Perm b2)
    (hn : (columnsOf b1).Nodup) :
    Option.map (fun t => (postPredict A t).1) (parseTrip b1) =
      Option.map (fun t => (postPredict A t).1) (parseTrip b2) := by
  have h : ∀ k, lookupVal b1 k = lookupVal b2 k := fun k => lookupVal_perm k hp hn
  have hpt : parseTrip b1 = parseTrip b2 := by
    unfold parseTrip
    simp only [h]
  rw [hpt]

/-- Witness for C5: the tGood body and the same body with its first two
fields swapped give identical responses. -/
theorem field_order_irrelevant_witness :
    (columnsOf bW1).Nodup ∧
    Option.map (fun t => (postPredict cA t).1) (parseTrip bW1) =
      Option.map (fun t => (postPredict cA t).1) (parseTrip bW2) :=
  ⟨by decide, field_order_irrelevant cA bW1 bW2 (by decide) (by decide)⟩

/-- C6: a call leaves the process-wide artifacts exactly as it found them,
and a second call on the resulting artifact state returns the identical
response, so predict is deterministic across repeated calls. -/
theorem predict_deterministic_readonly (A : Artifacts) (t : TripInput) :
    (postPredict A t).2 = A ∧
    (postPredict ((postPredict A t).2) t).1 = (postPredict A t).1 := by
  have h2 : (postPredict A t).2 = A := by
    unfold postPredict
    by_cases hv : tripValid t
    · rw [if_pos hv]
      unfold predictST
      cases hP : pipelineST (A, TripInput.dict t) with
      | error m => rfl
      | ok pr =>
        obtain ⟨A2, r⟩ := pr
        exact pipelineST_fst _ _ _ hP
    · rw [if_neg hv]
  exact ⟨h2, by rw [h2]⟩

/-- C7: when step 3 succeeds it rewrites exactly the columns named in the
numerical list with their standardized values, leaves every other column's
value untouched, and leaves the column order unchanged. -/
theorem scaling_frame (sc : StandardScaler) (nums : List String)
    (df df2 : Row) (h : scaleRow sc nums df = Except.ok df2) :
    columnsOf df2 = columnsOf df ∧
    (∀ c, c ∉ nums → lookupVal df2 c = lookupVal df c) ∧
    (nums.Nodup → ∃ sub scaled, selectNums df nums = Except.ok sub ∧
      StandardScaler.transform sc sub = Except.ok scaled ∧
      ∀ p ∈ nums.zip scaled, lookupVal df2 p.1 = some (Value.num p.2)) := by
  simp only [scaleRow] at h
  split at h
  · exact Except.noConfusion h
  · rename_i sub hSel
    split at h
    · exact Except.noConfusion h
    · rename_i scaled hTr
      injection h with hdf
      subst hdf
      refine ⟨columnsOf_setNums _ _ _,
        fun c hc => lookupVal_setNums_not_mem _ _ _ _ hc,
        fun hnd => ⟨sub, scaled, hSel, hTr, ?_⟩⟩
      intro p hp
      exact lookupVal_setNums_zip nums scaled df hnd
        (selectNums_ok_mem nums df sub hSel) p hp

/-- Witness for C7: scaling the x column of a two-column row standardizes
x and leaves the string column y and the column order alone. -/
theorem scaling_frame_witness :
    columnsOf wDf2 = columnsOf wDf ∧
    (∀ c, c ∉ ["x"] → lookupVal wDf2 c = lookupVal wDf c) ∧
    (["x"].Nodup → ∃ sub scaled, selectNums wDf ["x"] = Except.ok sub ∧
      StandardScaler.transform wSc sub = Except.ok scaled ∧
      ∀ p ∈ ["x"].zip scaled, lookupVal wDf2 p.1 = some (Value.num p.2)) :=
  scaling_frame wSc ["x"] wDf wDf2 rfl

/-- C8: when geocoding fails for either place name, the route handler does
not reach requests.post, stores a failure whose message names each
unresolved location, and renders that failure. -/
theorem geocode_failure_no_predict (geocode : String → Option Coord)
    (dist : Coord → Coord → ℚ) (post : TripInput → PostOutcome)
    (fromLoc toLoc : String) (p : RouteParams)
    (h : geocode fromLoc = none ∨ geocode toLoc = none) :
    (routeButton geocode dist post fromLoc toLoc p).2 = false ∧
    ∃ msg,
      (routeButton geocode dist post fromLoc toLoc p).1 =
        RouteResult.failure msg ∧
      routeShown (RouteResult.failure msg) = Shown.error ("❌ " ++ msg) ∧
      (geocode fromLoc = none → occursIn (couldNotFind fromLoc) msg = true) ∧
      (geocode toLoc = none → occursIn (couldNotFind toLoc) msg = true) := by
  unfold routeButton
  cases hf : geocode fromLoc with
  | none =>
    cases ht : geocode toLoc with
    | none =>
      exact ⟨rfl, couldNotFind fromLoc ++ (" | " ++ couldNotFind toLoc), rfl,
        rfl, fun _ => occursIn_left _ _, fun _ => occursIn_right2 _ _ _⟩
    | some tl =>
      exact ⟨rfl, couldNotFind fromLoc, rfl, rfl, fun _ => occursIn_self _,
        fun hcon => Option.noConfusion hcon⟩
  | some fl =>
    cases ht : geocode toLoc with
    | none =>
      exact ⟨rfl, couldNotFind toLoc, rfl, rfl,
        fun hcon => Option.noConfusion hcon,
        fun _ => occursIn_self _⟩
    | some tl =>
      rcases h with h | h
      · exact Option.noConfusion (hf.symm.trans h)
      · exact Option.noConfusion (ht.symm.trans h)

/-- Witness for C8: with a geocoder that resolves nothing, the route
handler posts nothing and records the failure naming both locations. -/
theorem geocode_failure_no_predict_witness :
    (routeButton gNone dZero pConn "Atlantis" "Berlin" wParams).2 = false ∧
    ∃ msg,
      (routeButton gNone dZero pConn "Atlantis" "Berlin" wParams).1 =
        RouteResult.failure msg ∧
      routeShown (RouteResult.failure msg) = Shown.error ("❌ " ++ msg) ∧
      (gNone "Atlantis" = none → occursIn (couldNotFind "Atlantis") msg = true) ∧
      (gNone "Berlin" = none → occursIn (couldNotFind "Berlin") msg = true) :=
  geocode_failure_no_predict gNone dZero pConn "Atlantis" "Berlin" wParams
    (Or.inl rfl)

/-- C9, amended: on a non-200 response the client displays an error naming
the HTTP status code, not the server's error text; when unreachable it
displays the fixed connection-failure message; in neither case does it
display a price; the route tab likewise stores a failure naming only the
status code. (The original claim said the server's error text is shown
verbatim; the counterexample shows only the status code is shown.) -/
theorem client_error_display (r : ServerResp) (h : r.status ≠ 200) :
    basicShown (PostOutcome.resp r) =
      Shown.error ("Error: " ++ toString r.status) ∧
    (∀ s, basicShown (PostOutcome.resp r) ≠ Shown.price s) ∧
    basicShown PostOutcome.connError =
      Shown.error "Cannot connect to backend API" ∧
    (∀ s, basicShown PostOutcome.connError ≠ Shown.price s) ∧
    (∀ (geocode : String → Option Coord) (dist : Coord → Coord → ℚ)
        (post : TripInput → PostOutcome) (fromLoc toLoc : String)
        (p : RouteParams) (fl tl : Coord),
        geocode fromLoc = some fl → geocode toLoc = some tl →
        post (mkRouteTrip (dist fl tl) p) = PostOutcome.resp r →
        (routeButton geocode dist post fromLoc toLoc p).1 =
          RouteResult.failure ("Prediction error: " ++ toString r.status)) := by
  have hb : basicShown (PostOutcome.resp r) =
      Shown.error ("Error: " ++ toString r.status) := by
    simp only [basicShown]
    rw [if_neg h]
  refine ⟨hb, ?_, rfl, ?_, ?_⟩
  · intro s hs
    rw [hb] at hs
    exact Shown.noConfusion hs
  · intro s hs
    exact Shown.noConfusion hs
  · intro geocode dist post fromLoc toLoc p fl tl hfg htg hpost
    unfold routeButton
    simp only [hfg, htg, hpost]
    rw [if_neg h]

/-- C9, counterexample to the claim as stated: for a 500 response whose
body detail is a message, the basic tab displays only the status code and
the server's text does not occur in what is displayed. -/
theorem server_error_not_verbatim :
    basicShown (PostOutcome.resp sResp) = Shown.error "Error: 500" ∧
    occursIn sResp.detail "Error: 500" = false ∧
    occursIn "boom" "Error: 500" = false :=
  ⟨rfl, by decide, by decide⟩

/-- Witness for C9: the 500 response is shown as its status code in the
basic tab, and stored as a status-code failure in the route tab. -/
theorem client_error_display_witness :
    basicShown (PostOutcome.resp sResp) =
      Shown.error ("Error: " ++ toString sResp.status) ∧
    (routeButton (fun _ => some { lat := 0, lon := 0 }) dZero
        (fun _ => PostOutcome.resp sResp) "Stockholm" "Berlin" wParams).1 =
      RouteResult.failure ("Prediction error: " ++ toString sResp.status) :=
  ⟨(client_error_display sResp (by decide)).1,
   (client_error_display sResp (by decide)).2.2.2.2
     (fun _ => some { lat := 0, lon := 0 }) dZero
     (fun _ => PostOutcome.resp sResp) "Stockholm" "Berlin" wParams
     { lat := 0, lon := 0 } { lat := 0, lon := 0 } rfl rfl rfl⟩

/-- C10: a name in the categorical list that is not among the row's
columns is silently skipped by step 2: deleting it from the list changes
nothing, so no encoding is attempted and no error is raised for it. -/
theorem absent_categorical_skipped (A : Artifacts) (c : String)
    (cats2 : List String) :
    ∀ (cats1 : List String) (df : Row), c ∉ columnsOf df →
    encodeCats (cats1 ++ c :: cats2) (A, df) =
      encodeCats (cats1 ++ cats2) (A, df) := by
  intro cats1
  induction cats1 with
  | nil =>
    intro df h
    simp only [List.nil_append, encodeCats]
    rw [if_neg h]
  | cons c0 rest ih =>
    intro df h
    simp only [List.cons_append, encodeCats]
    by_cases h0 : c0 ∈ columnsOf df
    · rw [if_pos h0, if_pos h0]
      cases hE : lookupEnc A.label_encoders c0 with
      | none => simp only [hE]
      | some e =>
        simp only [hE]
        cases hL : lookupVal df c0 with
        | none => simp only [hL]
        | some v =>
          simp only [hL]
          cases hT : LabelEncoder.transformV e v with
          | error m => simp only [hT]
          | ok code =>
            simp only [hT]
            apply ih
            rw [columnsOf_setVal]
            exact h
    · rw [if_neg h0, if_neg h0]
      exact ih df h

/-- Witness for C10: a Ghost entry in the categorical list is skipped on
the tGood row, which has no Ghost column. -/
theorem absent_categorical_skipped_witness :
    ("Ghost" ∉ columnsOf (TripInput.dict tGood)) ∧
    encodeCats (["Time_of_Day"] ++ "Ghost" :: ["Weather"])
        (cA, TripInput.dict tGood) =
      encodeCats (["Time_of_Day"] ++ ["Weather"]) (cA, TripInput.dict tGood) :=
  ⟨by decide, absent_categorical_skipped cA "Ghost" ["Weather"] ["Time_of_Day"]
    (TripInput.dict tGood) (by decide)⟩

end Taxi
